import Mathlib

/-!
Formalisation of the core logic of the Healthy Fire dashboard (`app.py`):
the check-in data model, the scorer (`compute_scores`, `quadrant`,
`status_from_balance`, `status_icon`, `quick_tip`) and the CSV record store
(`load_data`, `save_row`) together with the check-in form submit handler.

Answers are integers, scores are exact rationals (the Python floats involved
are quotients of small integers whose comparisons against the thresholds
`3` and `1.5` are never close enough for double rounding to flip them, since
`sum/3 = 3` iff `sum = 9` and `(s₁ - s₂)/3 = 3/2` has no integer solution).
Dates are modelled as ordinal day numbers (`Nat`): the code only ever
compares them for equality and sorts by their total order.
-/

namespace HealthyFire

/-- One persisted check-in row: a date and the six answers `Q1..Q6`
(columns of `healthy_fire_data.csv`). A `Row` is complete by construction:
all six answers are present. -/
structure Row where
  date : Nat
  Q1 : Int
  Q2 : Int
  Q3 : Int
  Q4 : Int
  Q5 : Int
  Q6 : Int
deriving DecidableEq

/-- `df["Fuel"] = df[["Q1","Q2","Q3"]].mean(axis=1)` in `compute_scores`. -/
def fuel (r : Row) : ℚ := (r.Q1 + r.Q2 + r.Q3) / 3

/-- `df["Drain"] = df[["Q4","Q5","Q6"]].mean(axis=1)` in `compute_scores`. -/
def drain (r : Row) : ℚ := (r.Q4 + r.Q5 + r.Q6) / 3

/-- `df["NetFire"] = df["Fuel"] - df["Drain"]` in `compute_scores`. -/
def netFire (r : Row) : ℚ := fuel r - drain r

/-- The `quadrant` helper inside `compute_scores`. -/
def quadrant (f d : ℚ) : String :=
  if f ≥ 3 ∧ d < 3 then "Sustainable"
  else if f ≥ 3 ∧ d ≥ 3 then "Fast Burner"
  else if f < 3 ∧ d ≥ 3 then "Exhausted"
  else "Detached"

/-- One row of the data frame returned by `compute_scores`: the original
columns plus the derived `Fuel`, `Drain`, `NetFire`, `Profile` columns. -/
structure Scored where
  row : Row
  Fuel : ℚ
  Drain : ℚ
  NetFire : ℚ
  Profile : String
deriving DecidableEq

/-- The effect of `compute_scores` on a single row. -/
def scoreRow (r : Row) : Scored :=
  { row := r
    Fuel := fuel r
    Drain := drain r
    NetFire := fuel r - drain r
    Profile := quadrant (fuel r) (drain r) }

/-- `compute_scores(df)`: adds the derived columns to every row (an empty
frame stays empty, which `List.map` gives for free). -/
def compute_scores (df : List Row) : List Scored := df.map scoreRow

/-- `status_from_balance(net_fire)`. -/
def status_from_balance (net_fire : ℚ) : String :=
  if net_fire > 3/2 then "Healthy Fire"
  else if net_fire < -(3/2) then "Fire at Risk"
  else "Flickering Fire"

/-- `status_icon(net_fire)`. -/
def status_icon (net_fire : ℚ) : String :=
  if net_fire > 3/2 then "🟢"
  else if net_fire < -(3/2) then "🔴"
  else "🟡"

/-- The maintenance tip returned by `quick_tip` when `NetFire > 1.5`. -/
def tipMaintain : String :=
  "Your fire is strong. Maintain it: protect sleep windows and one screen-free recovery block today."

/-- The drain-reduction tip returned by `quick_tip` when `NetFire < -1.5`. -/
def tipReduceDrain : String :=
  "Dial down drain: pick one task to drop/defer and schedule 30 min for active recovery (walk, stretch)."

/-- The `tips` lookup table inside `quick_tip`, keyed by item label. -/
def tips (label : String) : String :=
  if label = "Sleep/Recovery (Q1)" then
    "Aim for a calm wind-down: 20-30 min without screens before bed."
  else if label = "Motivation (Q2)" then
    "Reconnect with purpose: note 1 thing today that feels meaningful."
  else if label = "Support (Q3)" then
    "Ask for a micro-help: a 10-minute check-in or quick feedback."
  else if label = "Exhaustion (Q4)" then
    "Insert a 10-minute micro-break between blocks of work."
  else if label = "Overload (Q5)" then
    "Say no to one non-essential task today."
  else
    "Do a phone-free walk after work to create a boundary."

/-- The `items` dict built inside `quick_tip`, in insertion order `Q1..Q6`. -/
def items (r : Row) : List (String × Int) :=
  [("Sleep/Recovery (Q1)", r.Q1), ("Motivation (Q2)", r.Q2),
   ("Support (Q3)", r.Q3), ("Exhaustion (Q4)", r.Q4),
   ("Overload (Q5)", r.Q5), ("Switching off (Q6)", r.Q6)]

/-- `min(items, key=items.get)`: Python `min` over an insertion-ordered dict
returns the first key attaining the minimal value, i.e. it replaces the
current best only on a strictly smaller value. -/
def weakestItem (r : Row) : String :=
  ((items r).foldl (fun b c => if c.2 < b.2 then c else b)
    ("Sleep/Recovery (Q1)", r.Q1)).1

/-- `quick_tip(row)`. -/
def quick_tip (r : Row) : String :=
  if netFire r > 3/2 then tipMaintain
  else if netFire r < -(3/2) then tipReduceDrain
  else tips (weakestItem r)

/-- State of the backing CSV file as `load_data` distinguishes it:
absent (`os.path.exists` false), present but unreadable/unparsable
(`pd.read_csv` raises), or readable with a table of rows. -/
inductive FileState where
  | absent : FileState
  | unreadable : FileState
  | ok : List Row → FileState
deriving DecidableEq

/-- `load_data(path)`: absent or unreadable file yields the empty frame with
columns `date,Q1..Q6`; otherwise the parsed table. -/
def load_data : FileState → List Row
  | .absent => []
  | .unreadable => []
  | .ok t => t

/-- `save_row(path, row)`: load, drop rows with the same date, append the new
row, sort ascending by date, write the whole table back. The written table is
the returned list (the file afterwards is `FileState.ok` of it). -/
def save_row (fs : FileState) (row : Row) : List Row :=
  (((load_data fs).filter (fun r => r.date != row.date)) ++ [row]).mergeSort
    (fun a b => a.date ≤ b.date)

/-- The six radio answers of the check-in form; `none` is an unanswered
item (`st.radio` with `index=None`). -/
structure FormAnswers where
  Q1 : Option Int
  Q2 : Option Int
  Q3 : Option Int
  Q4 : Option Int
  Q5 : Option Int
  Q6 : Option Int
deriving DecidableEq

/-- `missing = [k for k, v in answers.items() if v is None]`. -/
def missing (a : FormAnswers) : List String :=
  (if a.Q1 = none then ["Q1"] else []) ++ (if a.Q2 = none then ["Q2"] else []) ++
  (if a.Q3 = none then ["Q3"] else []) ++ (if a.Q4 = none then ["Q4"] else []) ++
  (if a.Q5 = none then ["Q5"] else []) ++ (if a.Q6 = none then ["Q6"] else [])

/-- The `st.error` message shown for an incomplete submission. -/
def submitError : String := "Please answer all items before submitting."

/-- The form submit handler: on any missing answer, show the error and leave
the store untouched; otherwise build the row from `today` and the answers and
`save_row` it. Returns the file state after the interaction and the
user-visible error message, if any. -/
def handle_submit (fs : FileState) (today : Nat) (a : FormAnswers) :
    FileState × Option String :=
  if missing a ≠ [] then (fs, some submitError)
  else
    match a.Q1, a.Q2, a.Q3, a.Q4, a.Q5, a.Q6 with
    | some v1, some v2, some v3, some v4, some v5, some v6 =>
      (FileState.ok (save_row fs
        { date := today, Q1 := v1, Q2 := v2, Q3 := v3, Q4 := v4, Q5 := v5, Q6 := v6 }),
       none)
    | _, _, _, _, _, _ => (fs, some submitError)

/-- Rounding a score to two decimals, as the spec examples display it. -/
def round2 (x : ℚ) : ℚ := (round (100 * x) : ℤ) / 100

/-- C1: for every row the scorer returns `Fuel = mean(Q1,Q2,Q3)`,
`Drain = mean(Q4,Q5,Q6)` and `NetFire = Fuel - Drain`; on the answers
`{Q1:4,Q2:4,Q3:5,Q4:1,Q5:2,Q6:1}` it yields `Fuel = 13/3` (displayed 4.33),
`Drain = 4/3` (displayed 1.33) and `NetFire = 3.0`. -/
theorem C1_scorer_means :
    (∀ r : Row, (scoreRow r).Fuel = (r.Q1 + r.Q2 + r.Q3) / 3 ∧
      (scoreRow r).Drain = (r.Q4 + r.Q5 + r.Q6) / 3 ∧
      (scoreRow r).NetFire = (scoreRow r).Fuel - (scoreRow r).Drain) ∧
    compute_scores [⟨0, 4, 4, 5, 1, 2, 1⟩] =
      [{ row := ⟨0, 4, 4, 5, 1, 2, 1⟩, Fuel := 13/3, Drain := 4/3, NetFire := 3,
         Profile := "Sustainable" }] ∧
    round2 (13/3) = 433/100 ∧ round2 (4/3) = 133/100 ∧ round2 3 = 3 := by
  refine ⟨fun r => ⟨rfl, rfl, rfl⟩, ?_, ?_, ?_, ?_⟩
  · simp only [compute_scores, List.map_cons, List.map_nil, scoreRow, fuel,
      drain, quadrant]
    norm_num
  · have h : round ((100 : ℚ) * (13/3)) = 433 := by
      rw [round_eq]
      apply Int.floor_eq_iff.mpr
      constructor <;> norm_num
    rw [round2, h]
    norm_num
  · have h : round ((100 : ℚ) * (4/3)) = 133 := by
      rw [round_eq]
      apply Int.floor_eq_iff.mpr
      constructor <;> norm_num
    rw [round2, h]
    norm_num
  · have h : round ((100 : ℚ) * 3) = 300 := by
      rw [round_eq]
      apply Int.floor_eq_iff.mpr
      constructor <;> norm_num
    rw [round2, h]
    norm_num

/-- C2: the Profile label is a total function of the pair
`(Fuel ≥ 3, Drain ≥ 3)` matching the quadrant table, the boundary value 3
counting as `≥ 3`; all answers equal to 3 give Profile "Fast Burner". -/
theorem C2_profile_table :
    (∀ f d : ℚ, quadrant f d =
      if 3 ≤ f then (if 3 ≤ d then "Fast Burner" else "Sustainable")
      else (if 3 ≤ d then "Exhausted" else "Detached")) ∧
    quadrant 3 3 = "Fast Burner" ∧
    (scoreRow ⟨0, 3, 3, 3, 3, 3, 3⟩).Profile = "Fast Burner" := by
  refine ⟨fun f d => ?_, by norm_num [quadrant],
    by norm_num [scoreRow, fuel, drain, quadrant]⟩
  unfold quadrant
  rcases le_or_lt 3 f with hf | hf <;> rcases le_or_lt 3 d with hd | hd <;>
    split_ifs with h1 h2 h3 <;> simp_all <;> linarith

/-- C6: for answers in `[1,5]` the derived values satisfy `Fuel ∈ [1,5]`,
`Drain ∈ [1,5]` and `NetFire = Fuel - Drain ∈ [-4,4]`. -/
theorem C6_score_bounds (r : Row)
    (h1 : 1 ≤ r.Q1 ∧ r.Q1 ≤ 5) (h2 : 1 ≤ r.Q2 ∧ r.Q2 ≤ 5)
    (h3 : 1 ≤ r.Q3 ∧ r.Q3 ≤ 5) (h4 : 1 ≤ r.Q4 ∧ r.Q4 ≤ 5)
    (h5 : 1 ≤ r.Q5 ∧ r.Q5 ≤ 5) (h6 : 1 ≤ r.Q6 ∧ r.Q6 ≤ 5) :
    1 ≤ fuel r ∧ fuel r ≤ 5 ∧ 1 ≤ drain r ∧ drain r ≤ 5 ∧
    netFire r = fuel r - drain r ∧ -4 ≤ netFire r ∧ netFire r ≤ 4 := by
  have c1a : (1 : ℚ) ≤ r.Q1 := by exact_mod_cast h1.1
  have c1b : (r.Q1 : ℚ) ≤ 5 := by exact_mod_cast h1.2
  have c2a : (1 : ℚ) ≤ r.Q2 := by exact_mod_cast h2.1
  have c2b : (r.Q2 : ℚ) ≤ 5 := by exact_mod_cast h2.2
  have c3a : (1 : ℚ) ≤ r.Q3 := by exact_mod_cast h3.1
  have c3b : (r.Q3 : ℚ) ≤ 5 := by exact_mod_cast h3.2
  have c4a : (1 : ℚ) ≤ r.Q4 := by exact_mod_cast h4.1
  have c4b : (r.Q4 : ℚ) ≤ 5 := by exact_mod_cast h4.2
  have c5a : (1 : ℚ) ≤ r.Q5 := by exact_mod_cast h5.1
  have c5b : (r.Q5 : ℚ) ≤ 5 := by exact_mod_cast h5.2
  have c6a : (1 : ℚ) ≤ r.Q6 := by exact_mod_cast h6.1
  have c6b : (r.Q6 : ℚ) ≤ 5 := by exact_mod_cast h6.2
  refine ⟨?_, ?_, ?_, ?_, rfl, ?_, ?_⟩ <;>
    simp only [netFire, fuel, drain] <;> linarith

/-- Witness for C6 at the all-ones row. -/
theorem C6_score_bounds_witness :
    1 ≤ fuel ⟨0, 1, 1, 1, 5, 5, 5⟩ ∧ fuel ⟨0, 1, 1, 1, 5, 5, 5⟩ ≤ 5 ∧
    1 ≤ drain ⟨0, 1, 1, 1, 5, 5, 5⟩ ∧ drain ⟨0, 1, 1, 1, 5, 5, 5⟩ ≤ 5 ∧
    netFire ⟨0, 1, 1, 1, 5, 5, 5⟩ =
      fuel ⟨0, 1, 1, 1, 5, 5, 5⟩ - drain ⟨0, 1, 1, 1, 5, 5, 5⟩ ∧
    -4 ≤ netFire ⟨0, 1, 1, 1, 5, 5, 5⟩ ∧ netFire ⟨0, 1, 1, 1, 5, 5, 5⟩ ≤ 4 :=
  C6_score_bounds ⟨0, 1, 1, 1, 5, 5, 5⟩ (by decide) (by decide) (by decide)
    (by decide) (by decide) (by decide)

/-- C7: an absent or unreadable backing file makes `load_data` return the
empty table (as a total function, it raises nothing to the caller). -/
theorem C7_load_failure_empty :
    load_data FileState.absent = [] ∧ load_data FileState.unreadable = [] :=
  ⟨rfl, rfl⟩

/-- `weakestItem` picks the minimum-valued question, ties broken by first
occurrence in the fixed order `Q1..Q6`: `Qi` is picked exactly when it is
strictly below every earlier answer and at most every later one. -/
theorem weakestItem_cases (r : Row) :
    (r.Q1 ≤ r.Q2 ∧ r.Q1 ≤ r.Q3 ∧ r.Q1 ≤ r.Q4 ∧ r.Q1 ≤ r.Q5 ∧ r.Q1 ≤ r.Q6 →
      weakestItem r = "Sleep/Recovery (Q1)") ∧
    (r.Q2 < r.Q1 ∧ r.Q2 ≤ r.Q3 ∧ r.Q2 ≤ r.Q4 ∧ r.Q2 ≤ r.Q5 ∧ r.Q2 ≤ r.Q6 →
      weakestItem r = "Motivation (Q2)") ∧
    (r.Q3 < r.Q1 ∧ r.Q3 < r.Q2 ∧ r.Q3 ≤ r.Q4 ∧ r.Q3 ≤ r.Q5 ∧ r.Q3 ≤ r.Q6 →
      weakestItem r = "Support (Q3)") ∧
    (r.Q4 < r.Q1 ∧ r.Q4 < r.Q2 ∧ r.Q4 < r.Q3 ∧ r.Q4 ≤ r.Q5 ∧ r.Q4 ≤ r.Q6 →
      weakestItem r = "Exhaustion (Q4)") ∧
    (r.Q5 < r.Q1 ∧ r.Q5 < r.Q2 ∧ r.Q5 < r.Q3 ∧ r.Q5 < r.Q4 ∧ r.Q5 ≤ r.Q6 →
      weakestItem r = "Overload (Q5)") ∧
    (r.Q6 < r.Q1 ∧ r.Q6 < r.Q2 ∧ r.Q6 < r.Q3 ∧ r.Q6 < r.Q4 ∧ r.Q6 < r.Q5 →
      weakestItem r = "Switching off (Q6)") := by
  simp only [weakestItem, items, List.foldl, ite_self]
  repeat' split
  all_goals refine ⟨?_, ?_, ?_, ?_, ?_, ?_⟩
  all_goals intro hm
  all_goals first | rfl | (exfalso; omega)

/-- C4: `quick_tip` returns the maintenance tip when `NetFire > 1.5`, the
drain-reduction tip when `NetFire < -1.5`, and otherwise the lookup-table
tip of the minimum-valued question among the six answers, ties broken by
first occurrence in the fixed order `Q1..Q6`. -/
theorem C4_quick_tip_selection (r : Row) :
    (netFire r > 3/2 → quick_tip r = tipMaintain) ∧
    (netFire r < -(3/2) → quick_tip r = tipReduceDrain) ∧
    (¬ netFire r > 3/2 → ¬ netFire r < -(3/2) →
      ((r.Q1 ≤ r.Q2 ∧ r.Q1 ≤ r.Q3 ∧ r.Q1 ≤ r.Q4 ∧ r.Q1 ≤ r.Q5 ∧ r.Q1 ≤ r.Q6 →
          quick_tip r = tips "Sleep/Recovery (Q1)") ∧
       (r.Q2 < r.Q1 ∧ r.Q2 ≤ r.Q3 ∧ r.Q2 ≤ r.Q4 ∧ r.Q2 ≤ r.Q5 ∧ r.Q2 ≤ r.Q6 →
          quick_tip r = tips "Motivation (Q2)") ∧
       (r.Q3 < r.Q1 ∧ r.Q3 < r.Q2 ∧ r.Q3 ≤ r.Q4 ∧ r.Q3 ≤ r.Q5 ∧ r.Q3 ≤ r.Q6 →
          quick_tip r = tips "Support (Q3)") ∧
       (r.Q4 < r.Q1 ∧ r.Q4 < r.Q2 ∧ r.Q4 < r.Q3 ∧ r.Q4 ≤ r.Q5 ∧ r.Q4 ≤ r.Q6 →
          quick_tip r = tips "Exhaustion (Q4)") ∧
       (r.Q5 < r.Q1 ∧ r.Q5 < r.Q2 ∧ r.Q5 < r.Q3 ∧ r.Q5 < r.Q4 ∧ r.Q5 ≤ r.Q6 →
          quick_tip r = tips "Overload (Q5)") ∧
       (r.Q6 < r.Q1 ∧ r.Q6 < r.Q2 ∧ r.Q6 < r.Q3 ∧ r.Q6 < r.Q4 ∧ r.Q6 < r.Q5 →
          quick_tip r = tips "Switching off (Q6)"))) := by
  refine ⟨fun h => ?_, fun h => ?_, fun h1 h2 => ?_⟩
  · unfold quick_tip
    rw [if_pos h]
  · have h' : ¬ netFire r > 3/2 := by linarith
    unfold quick_tip
    rw [if_neg h', if_pos h]
  · have e : quick_tip r = tips (weakestItem r) := by
      unfold quick_tip
      rw [if_neg h1, if_neg h2]
    have w := weakestItem_cases r
    exact ⟨fun hm => by rw [e, w.1 hm], fun hm => by rw [e, w.2.1 hm],
      fun hm => by rw [e, w.2.2.1 hm], fun hm => by rw [e, w.2.2.2.1 hm],
      fun hm => by rw [e, w.2.2.2.2.1 hm], fun hm => by rw [e, w.2.2.2.2.2 hm]⟩

/-- Witness for C4 at answers `(3,3,1,3,3,3)`: NetFire is `-2/3`, in the
flickering band, the minimum-valued question is Q3, and `quick_tip` returns
the Q3 tip. -/
theorem C4_quick_tip_selection_witness :
    quick_tip ⟨0, 3, 3, 1, 3, 3, 3⟩ = tips "Support (Q3)" :=
  ((C4_quick_tip_selection ⟨0, 3, 3, 1, 3, 3, 3⟩).2.2
    (by norm_num [netFire, fuel, drain])
    (by norm_num [netFire, fuel, drain])).2.2.1 (by norm_num)

/-- C5 counterexample: on answers `{Q1:2,Q2:4,Q3:4,Q4:1,Q5:1,Q6:1}` the
NetFire is `7/3 ≈ 2.33 > 1.5`, which is NOT in the flickering band, the
weakest (minimum-valued) item is Q4 (value 1), not Q1, and `quick_tip`
returns the maintenance tip, not the Q1-specific tip. -/
theorem C5_counterexample :
    netFire ⟨0, 2, 4, 4, 1, 1, 1⟩ = 7/3 ∧
    netFire ⟨0, 2, 4, 4, 1, 1, 1⟩ > 3/2 ∧
    weakestItem ⟨0, 2, 4, 4, 1, 1, 1⟩ = "Exhaustion (Q4)" ∧
    quick_tip ⟨0, 2, 4, 4, 1, 1, 1⟩ = tipMaintain ∧
    tipMaintain ≠ tips "Sleep/Recovery (Q1)" := by
  have hnf : netFire ⟨0, 2, 4, 4, 1, 1, 1⟩ = 7/3 := by
    norm_num [netFire, fuel, drain]
  refine ⟨hnf, by rw [hnf]; norm_num, by decide, ?_, by decide⟩
  unfold quick_tip
  rw [if_pos (by rw [hnf]; norm_num)]

/-- C5 amended: on answers `{Q1:2,Q2:4,Q3:4,Q4:1,Q5:1,Q6:1}`, NetFire is
`7/3 > 1.5` (healthy band), so `quick_tip` returns the maintenance tip. -/
theorem C5_amended :
    netFire ⟨0, 2, 4, 4, 1, 1, 1⟩ = 7/3 ∧
    netFire ⟨0, 2, 4, 4, 1, 1, 1⟩ > 3/2 ∧
    quick_tip ⟨0, 2, 4, 4, 1, 1, 1⟩ = tipMaintain := by
  have hnf : netFire ⟨0, 2, 4, 4, 1, 1, 1⟩ = 7/3 := by
    norm_num [netFire, fuel, drain]
  refine ⟨hnf, by rw [hnf]; norm_num, ?_⟩
  unfold quick_tip
  rw [if_pos (by rw [hnf]; norm_num)]

/-- C3: after `save_row`, loading the written table yields exactly one
record with the row's date, and that record is the row itself, unchanged
(latest submission wins; round-trip through persistence). -/
theorem C3_upsert_roundtrip (fs : FileState) (row : Row) :
    (load_data (FileState.ok (save_row fs row))).filter
      (fun r => r.date == row.date) = [row] := by
  show (save_row fs row).filter (fun r => r.date == row.date) = [row]
  have hperm : List.Perm (save_row fs row)
      (((load_data fs).filter (fun r => r.date != row.date)) ++ [row]) :=
    List.mergeSort_perm _ _
  have h2 : ((((load_data fs).filter (fun r => r.date != row.date)) ++
      [row]).filter (fun r => r.date == row.date)) = [row] := by
    rw [List.filter_append, List.filter_filter]
    simp
  have h3 := hperm.filter (fun r => r.date == row.date)
  rw [h2] at h3
  exact List.perm_singleton.mp h3

/-- Witness for C3: upserting a concrete row over a store that already has a
record for its date leaves exactly that row under its date. -/
theorem C3_upsert_roundtrip_witness :
    (load_data (FileState.ok
      (save_row (FileState.ok [⟨7, 1, 1, 1, 1, 1, 1⟩]) ⟨7, 4, 4, 5, 1, 2, 1⟩))).filter
      (fun r => r.date == (⟨7, 4, 4, 5, 1, 2, 1⟩ : Row).date) =
      [⟨7, 4, 4, 5, 1, 2, 1⟩] :=
  C3_upsert_roundtrip (FileState.ok [⟨7, 1, 1, 1, 1, 1, 1⟩]) ⟨7, 4, 4, 5, 1, 2, 1⟩

/-- C8: after any upsert the written table is sorted ascending by date, and
it is, up to the sort, the prior table minus the records sharing the new
row's date, with the new row appended (remove, append, re-sort, rewrite). -/
theorem C8_upsert_sorted (fs : FileState) (row : Row) :
    List.Pairwise (fun a b : Row => a.date ≤ b.date) (save_row fs row) ∧
    List.Perm (save_row fs row)
      (((load_data fs).filter (fun r => r.date != row.date)) ++ [row]) := by
  constructor
  · unfold save_row
    refine List.Pairwise.imp (fun hab => of_decide_eq_true hab)
      (List.sorted_mergeSort ?_ ?_ _)
    · intro a b c hab hbc
      simp only [decide_eq_true_eq] at *
      omega
    · intro a b
      simp only [Bool.or_eq_true, decide_eq_true_eq]
      exact Nat.le_total _ _
  · exact List.mergeSort_perm _ _

/-- Witness for C8 at a concrete two-row store. -/
theorem C8_upsert_sorted_witness :
    List.Pairwise (fun a b : Row => a.date ≤ b.date)
      (save_row (FileState.ok [⟨9, 2, 2, 2, 2, 2, 2⟩, ⟨3, 1, 1, 1, 1, 1, 1⟩])
        ⟨5, 4, 4, 5, 1, 2, 1⟩) ∧
    List.Perm
      (save_row (FileState.ok [⟨9, 2, 2, 2, 2, 2, 2⟩, ⟨3, 1, 1, 1, 1, 1, 1⟩])
        ⟨5, 4, 4, 5, 1, 2, 1⟩)
      (((load_data (FileState.ok [⟨9, 2, 2, 2, 2, 2, 2⟩, ⟨3, 1, 1, 1, 1, 1, 1⟩])).filter
        (fun r => r.date != (⟨5, 4, 4, 5, 1, 2, 1⟩ : Row).date)) ++
        [⟨5, 4, 4, 5, 1, 2, 1⟩]) :=
  C8_upsert_sorted (FileState.ok [⟨9, 2, 2, 2, 2, 2, 2⟩, ⟨3, 1, 1, 1, 1, 1, 1⟩])
    ⟨5, 4, 4, 5, 1, 2, 1⟩

/-- C9: a submission missing any of the six answers is rejected with the
user-visible error message and leaves the store exactly unchanged; a
submission that passes (no error) had all six answers present. -/
theorem C9_incomplete_rejected (fs : FileState) (today : Nat)
    (a : FormAnswers) :
    ((a.Q1 = none ∨ a.Q2 = none ∨ a.Q3 = none ∨ a.Q4 = none ∨
        a.Q5 = none ∨ a.Q6 = none) →
      handle_submit fs today a = (fs, some submitError)) ∧
    ((handle_submit fs today a).2 = none →
      a.Q1.isSome ∧ a.Q2.isSome ∧ a.Q3.isSome ∧ a.Q4.isSome ∧
        a.Q5.isSome ∧ a.Q6.isSome) := by
  obtain ⟨q1, q2, q3, q4, q5, q6⟩ := a
  cases q1 <;> cases q2 <;> cases q3 <;> cases q4 <;> cases q5 <;> cases q6 <;>
    simp [handle_submit, missing, submitError]

/-- Witness for C9: submitting with `Q1` unanswered is rejected and the
(absent) store is unchanged. -/
theorem C9_incomplete_rejected_witness :
    handle_submit FileState.absent 0
      ⟨none, some 3, some 3, some 3, some 3, some 3⟩ =
      (FileState.absent, some submitError) :=
  (C9_incomplete_rejected FileState.absent 0
      ⟨none, some 3, some 3, some 3, some 3, some 3⟩).1 (Or.inl rfl)

/-- C10: the status label is "Healthy Fire" exactly when `NetFire > 1.5`,
"Fire at Risk" exactly when `NetFire < -1.5` and "Flickering Fire" otherwise,
and the status icon agrees with the label on the same thresholds. -/
theorem C10_status_label_icon (nf : ℚ) :
    (status_from_balance nf = "Healthy Fire" ↔ nf > 3/2) ∧
    (status_from_balance nf = "Fire at Risk" ↔ nf < -(3/2)) ∧
    (status_from_balance nf = "Flickering Fire" ↔
      ¬ nf > 3/2 ∧ ¬ nf < -(3/2)) ∧
    (status_icon nf = "🟢" ↔ status_from_balance nf = "Healthy Fire") ∧
    (status_icon nf = "🔴" ↔ status_from_balance nf = "Fire at Risk") ∧
    (status_icon nf = "🟡" ↔ status_from_balance nf = "Flickering Fire") := by
  unfold status_from_balance status_icon
  split_ifs with h1 h2 <;> refine ⟨?_, ?_, ?_, ?_, ?_, ?_⟩ <;>
    (simp_all; try linarith)

/-- Witness for C10 at `NetFire = 2`. -/
theorem C10_status_label_icon_witness :
    (status_from_balance 2 = "Healthy Fire" ↔ (2 : ℚ) > 3/2) ∧
    (status_from_balance 2 = "Fire at Risk" ↔ (2 : ℚ) < -(3/2)) ∧
    (status_from_balance 2 = "Flickering Fire" ↔
      ¬ (2 : ℚ) > 3/2 ∧ ¬ (2 : ℚ) < -(3/2)) ∧
    (status_icon 2 = "🟢" ↔ status_from_balance 2 = "Healthy Fire") ∧
    (status_icon 2 = "🔴" ↔ status_from_balance 2 = "Fire at Risk") ∧
    (status_icon 2 = "🟡" ↔ status_from_balance 2 = "Flickering Fire") :=
  C10_status_label_icon 2

end HealthyFire
